import Mathlib

/-
  Shallow embedding of the ParticleSolver simulation engine
  (src/gpu/src/particlesystem.cpp) and verification of its specification.

  Floating-point scalars are modelled as exact rationals; C float-to-int
  conversion is modelled as truncation toward zero; the C library rand()
  stream is modelled as an explicit stream of draws supplied by an
  environment.  Extern CUDA wrapper functions that only append to the
  particle-attribute arrays or to the constraint sets are modelled as list
  appends, as the spec describes them (spec sections 3 and 4.1).
-/

namespace PSys

/-- Rational 4-vector modelling the C float4 type of helper_math. -/
structure V4 where
  x : ℚ
  y : ℚ
  z : ℚ
  w : ℚ
deriving DecidableEq

/-- Rational 3-vector modelling the C float3 type. -/
structure V3 where
  x : ℚ
  y : ℚ
  z : ℚ
deriving DecidableEq

/-- Rational 2-vector modelling the C float2 type. -/
structure V2 where
  x : ℚ
  y : ℚ
deriving DecidableEq

/-- Integer 3-vector modelling the C int3 type. -/
structure I3 where
  x : ℤ
  y : ℤ
  z : ℤ
deriving DecidableEq

/-- Integer 2-vector modelling the C int2 type. -/
structure I2 where
  x : ℤ
  y : ℤ
deriving DecidableEq

/-- Environment for the C library randomness consumed by the engine.
rnd models successive frand() draws (values in the unit interval);
palette models the color value read by the idiom colors[rand() % numColors]
for a draw at a given stream position (the colors table lives in a header
outside src).  Each C rand() call consumes one stream position. -/
structure Env where
  rnd : ℕ → ℚ
  palette : ℕ → V4

/-- C float-to-int conversion: truncation toward zero (exact here because
the embedded scalars are rationals). -/
def cppTrunc (q : ℚ) : ℤ := q.num.tdiv (q.den : ℤ)

/-- The float reciprocal 1.f/m, as the source computes inverse mass
(particlesystem.cpp:301).  The value none models the non-finite IEEE
result (an infinity) produced when m = 0; otherwise the exact finite
reciprocal. -/
def floatRecip (m : ℚ) : Option ℚ := if m = 0 then none else some (1 / m)

/-- Modelled from the spec: the phase tags SOLID, FLUID and RIGID (+ group
index) come from a header that is not under src; the spec (section 3 and
glossary) only requires them to be distinct classification tags, with
RIGID carrying a group offset. -/
def SOLID : ℤ := 0

/-- Modelled from the spec: fluid phase tag (see SOLID). -/
def FLUID : ℤ := 1

/-- Modelled from the spec: rigid phase tag base (see SOLID). -/
def RIGID : ℤ := 2

/-- The ParticleSystem state: the particle store as parallel attribute
lists (position, velocity, inverse mass, rest density, phase), the
append-only constraint sets, the color-group bookkeeping, the two
insertion queues, and the position of the next random draw.  The GPU
scratch buffers (sorted arrays, grid tables) are owned by the kernel
abstraction and carry no cross-step state visible to the claims. -/
structure PS where
  maxParticles : ℕ
  particleRadius : ℚ
  solverIterations : ℕ
  numParticles : ℕ
  pos : List V4
  vel : List V4
  w : List (Option ℚ)
  ro : List ℚ
  phase : List ℤ
  distCons : List ((ℕ × ℕ) × ℚ)
  pointCons : List (ℕ × V3)
  colorIndex : List (ℤ × ℤ)
  colors : List V4
  rigidIndex : ℕ
  particlesToAdd : List (V4 × V4)
  fluidsToAdd : List (V4 × V4)
  rngIdx : ℕ
deriving DecidableEq

/-- The ParticleSystem constructor (particlesystem.cpp:36): an engine with
the given capacity, radius and iteration count, zero particles, and all
stores empty. -/
def initPS (particleRadius : ℚ) (maxParticles : ℕ) (iterations : ℕ) : PS :=
  { maxParticles := maxParticles
    particleRadius := particleRadius
    solverIterations := iterations
    numParticles := 0
    pos := []
    vel := []
    w := []
    ro := []
    phase := []
    distCons := []
    pointCons := []
    colorIndex := []
    colors := []
    rigidIndex := 0
    particlesToAdd := []
    fluidsToAdd := []
    rngIdx := 0 }

/-- ParticleSystem::addParticle (particlesystem.cpp:287): a silent no-op
when numParticles equals maxParticles; otherwise writes the position at
slot numParticles (the glBufferSubData write at that offset) and appends
velocity, inverse mass 1/mass, rest density and phase through the extern
append wrappers, modelled as appends to the parallel lists, then
increments numParticles. -/
def addParticle (p v : V4) (mass : ℚ) (restDensity : ℚ) (ph : ℤ) (s : PS) : PS :=
  if s.numParticles = s.maxParticles then s
  else
    { s with
      pos := s.pos ++ [p]
      vel := s.vel ++ [v]
      w := s.w ++ [floatRecip mass]
      ro := s.ro ++ [restDensity]
      phase := s.phase ++ [ph]
      numParticles := s.numParticles + 1 }

/-- ParticleSystem::addParticleMultiple (particlesystem.cpp:310): a silent
no-op when numParticles + n is greater than or equal to maxParticles
(note: greater-or-equal, so a batch that would exactly fill the store is
also dropped); otherwise appends the n given entries in bulk and adds n
to numParticles. -/
def addParticleMultiple (p v : List V4) (wIn : List (Option ℚ)) (roIn : List ℚ)
    (phIn : List ℤ) (n : ℕ) (s : PS) : PS :=
  if s.maxParticles ≤ s.numParticles + n then s
  else
    { s with
      pos := s.pos ++ p.take n
      vel := s.vel ++ v.take n
      w := s.w ++ wIn.take n
      ro := s.ro ++ roIn.take n
      phase := s.phase ++ phIn.take n
      numParticles := s.numParticles + n }

/-- Modelled from the spec: addDistanceConstraint is an extern CUDA
wrapper whose body is not under src; per spec section 3 the distance
constraint set (unordered particle-index pairs plus a target rest length)
is append-only, so the call appends its n pairs. -/
def addDistanceConstraint (indices : List (ℕ × ℕ)) (dists : List ℚ) (n : ℕ) (s : PS) : PS :=
  { s with distCons := s.distCons ++ List.zip (indices.take n) (dists.take n) }

/-- Modelled from the spec: addPointConstraint is an extern CUDA wrapper
whose body is not under src; per spec section 3 the point constraint set
(particle index plus pinned target position) is append-only, so the call
appends its n pins. -/
def addPointConstraint (indices : List ℕ) (points : List V3) (n : ℕ) (s : PS) : PS :=
  { s with pointCons := s.pointCons ++ List.zip (indices.take n) (points.take n) }

/-- ParticleSystem::makePointConstraint (particlesystem.cpp:635). -/
def makePointConstraint (index : ℕ) (point : V3) (s : PS) : PS :=
  addPointConstraint [index] [point] 1 s

/-- ParticleSystem::makeDistanceConstraint (particlesystem.cpp:639). -/
def makeDistanceConstraint (a b : ℕ) (distance : ℚ) (s : PS) : PS :=
  addDistanceConstraint [(a, b)] [distance] 1 s

/-- ParticleSystem::setParticleToAdd (particlesystem.cpp:276): jitters the
x and y coordinates by one percent of the particle radius using two
frand() draws, enqueues the (position, 1) and (velocity, mass) pair, and
immediately pushes a singleton color group with a palette draw. -/
def setParticleToAdd (env : Env) (p v : V3) (mass : ℚ) (s : PS) : PS :=
  let jitter := s.particleRadius * (1 / 100)
  let px := p.x + (env.rnd s.rngIdx * 2 - 1) * jitter
  let py := p.y + (env.rnd (s.rngIdx + 1) * 2 - 1) * jitter
  { s with
    particlesToAdd := s.particlesToAdd ++
      [(⟨px, py, p.z, 1⟩, ⟨v.x, v.y, v.z, mass⟩)]
    colorIndex := s.colorIndex ++ [((s.numParticles : ℤ), (s.numParticles : ℤ) + 1)]
    colors := s.colors ++ [env.palette (s.rngIdx + 2)]
    rngIdx := s.rngIdx + 3 }

/-- ParticleSystem::setFluidToAdd (particlesystem.cpp:326): enqueues the
(position, mass) and (color, density) pair on the fluid queue. -/
def setFluidToAdd (p c : V3) (mass density : ℚ) (s : PS) : PS :=
  { s with fluidsToAdd := s.fluidsToAdd ++ [(⟨p.x, p.y, p.z, mass⟩, ⟨c.x, c.y, c.z, density⟩)] }

/-- ParticleSystem::addParticles (particlesystem.cpp:241): drains the
discrete-particle queue, admitting each queued (pos, vel+mass) pair as a
SOLID particle with rest density 1.5 and the queued w component as its
mass.  The loop body of the drain: -/
def drainParticleStep (t : PS) (pv : V4 × V4) : PS :=
  addParticle pv.1 ⟨pv.2.x, pv.2.y, pv.2.z, 0⟩ pv.2.w (3 / 2) SOLID t

/-- ParticleSystem::addParticles drain loop body is drainParticleStep. -/
def addParticles (s : PS) : PS :=
  s.particlesToAdd.foldl drainParticleStep { s with particlesToAdd := [] }

/-- Loop body of the ParticleSystem::addFluids drain (particlesystem.cpp:269):
each queued (pos+mass, color+density) pair becomes a FLUID particle with
initial velocity (0,-1,0). -/
def drainFluidStep (t : PS) (pc : V4 × V4) : PS :=
  addParticle ⟨pc.1.x, pc.1.y, pc.1.z, 1⟩ ⟨0, -1, 0, 0⟩ pc.1.w pc.2.w FLUID t

/-- ParticleSystem::addFluids (particlesystem.cpp:256): on a non-empty
fluid queue, drains every queued (pos+mass, color+density) pair into a
FLUID particle with downward initial velocity, then pushes a single color
group spanning all particles admitted by the drain, colored with the last
queued sample's color. -/
def addFluids (s : PS) : PS :=
  if h : s.fluidsToAdd = [] then s
  else
    let start : ℤ := (s.numParticles : ℤ)
    let s' := s.fluidsToAdd.foldl drainFluidStep { s with fluidsToAdd := [] }
    let lastColor := (s.fluidsToAdd.getLast h).2
    { s' with
      colorIndex := s'.colorIndex ++ [(start, (s'.numParticles : ℤ))]
      colors := s'.colors ++ [⟨lastColor.x, lastColor.y, lastColor.z, 1⟩] }

/-- ParticleSystem::addNewStuff (particlesystem.cpp:236): drains the
particle queue, then the fluid queue. -/
def addNewStuff (s : PS) : PS := addFluids (addParticles s)

/-- Per-axis particle counts of ParticleSystem::addFluid
(particlesystem.cpp:336) with spacing 2.5 times the radius.  Note the
source expression (int)ceil(ur.x - ll.x) / distance: the cast binds to
ceil, so ceil is applied to the already-integer extent (a no-op) and the
subsequent float quotient is truncated toward zero by the int3
constructor, not ceiled. -/
def fluidCount (ll ur : I3) (particleRadius : ℚ) : I3 :=
  let distance := particleRadius * (5 / 2)
  ⟨cppTrunc (((⌈((ur.x - ll.x : ℤ) : ℚ)⌉ : ℤ) : ℚ) / distance),
   cppTrunc (((⌈((ur.y - ll.y : ℤ) : ℚ)⌉ : ℤ) : ℚ) / distance),
   cppTrunc (((⌈((ur.z - ll.z : ℤ) : ℚ)⌉ : ℤ) : ℚ) / distance)⟩

/-- Per-axis particle counts of ParticleSystem::addParticleGrid
(particlesystem.cpp:384) with spacing 2.002 times the radius; same
cast-then-truncate pattern as fluidCount. -/
def gridCount (ll ur : I3) (particleRadius : ℚ) : I3 :=
  let distance := particleRadius * (1001 / 500)
  ⟨cppTrunc (((⌈((ur.x - ll.x : ℤ) : ℚ)⌉ : ℤ) : ℚ) / distance),
   cppTrunc (((⌈((ur.y - ll.y : ℤ) : ℚ)⌉ : ℤ) : ℚ) / distance),
   cppTrunc (((⌈((ur.z - ll.z : ℤ) : ℚ)⌉ : ℤ) : ℚ) / distance)⟩

/-- Per-axis particle counts of ParticleSystem::addHorizCloth
(particlesystem.cpp:428): x extent over spacing.x and y extent over
spacing.z, with the same cast-then-truncate pattern as fluidCount. -/
def clothCount (ll ur : I2) (spacing : V3) : I2 :=
  ⟨cppTrunc (((⌈((ur.x - ll.x : ℤ) : ℚ)⌉ : ℤ) : ℚ) / spacing.x),
   cppTrunc (((⌈((ur.y - ll.y : ℤ) : ℚ)⌉ : ℤ) : ℚ) / spacing.z)⟩

/-- Per-axis lattice counts of ParticleSystem::addStaticSphere
(particlesystem.cpp:574), same cast-then-truncate pattern as
fluidCount. -/
def sphereCount (ll ur : I3) (spacing : ℚ) : I3 :=
  ⟨cppTrunc (((⌈((ur.x - ll.x : ℤ) : ℚ)⌉ : ℤ) : ℚ) / spacing),
   cppTrunc (((⌈((ur.y - ll.y : ℤ) : ℚ)⌉ : ℤ) : ℚ) / spacing),
   cppTrunc (((⌈((ur.z - ll.z : ℤ) : ℚ)⌉ : ℤ) : ℚ) / spacing)⟩

/-- Positions generated by the shared triple loop of addFluid
(particlesystem.cpp:347) and addParticleGrid (particlesystem.cpp:395):
z outermost, x innermost, each coordinate of each particle offset by a
fresh frand() draw scaled into the jitter amplitude.  The draw index is
the stream position: three consecutive draws per particle, particles in
loop order. -/
def latticeJitterPos (ll : I3) (distance jitter : ℚ) (rnd : ℕ → ℚ) (rngIdx : ℕ)
    (cx cy cz : ℕ) : List V4 :=
  (List.range cz).flatMap fun z =>
    (List.range cy).flatMap fun y =>
      (List.range cx).map fun x =>
        let base := rngIdx + 3 * ((z * cy + y) * cx + x)
        ⟨(ll.x : ℚ) + (x : ℚ) * distance + (rnd base * 2 - 1) * jitter,
         (ll.y : ℚ) + (y : ℚ) * distance + (rnd (base + 1) * 2 - 1) * jitter,
         (ll.z : ℚ) + (z : ℚ) * distance + (rnd (base + 2) * 2 - 1) * jitter,
         1⟩

/-- ParticleSystem::addFluid (particlesystem.cpp:331): fills the box with
a jittered lattice of FLUID particles of the given rest density, admits
them as one batch, and pushes one color group over the admitted range
with the blob's own color.  Negative axis counts would be undefined
behavior in the source (a negative-length stack array); the embedding
clamps them to zero iterations as the loops would execute none. -/
def addFluid (ll ur : I3) (mass density : ℚ) (color : V3) (env : Env) (s : PS) : PS :=
  let start : ℤ := (s.numParticles : ℤ)
  let jitter := s.particleRadius * (1 / 100)
  let distance := s.particleRadius * (5 / 2)
  let count := fluidCount ll ur s.particleRadius
  let cx := count.x.toNat
  let cy := count.y.toNat
  let cz := count.z.toNat
  let arraySize := cx * cy * cz
  let posL := latticeJitterPos ll distance jitter env.rnd s.rngIdx cx cy cz
  let velL := List.replicate arraySize (V4.mk 0 0 0 0)
  let wL := List.replicate arraySize (floatRecip mass)
  let roL := List.replicate arraySize density
  let phL := List.replicate arraySize FLUID
  let s1 := addParticleMultiple posL velL wL roL phL arraySize
    { s with rngIdx := s.rngIdx + 3 * arraySize }
  { s1 with
    colorIndex := s1.colorIndex ++ [(start, (s1.numParticles : ℤ))]
    colors := s1.colors ++ [⟨color.x, color.y, color.z, 1⟩] }

/-- ParticleSystem::addParticleGrid (particlesystem.cpp:377): fills the
box with a lattice of SOLID particles of rest density 1, jittered only
when addJitter is set (the frand() draws are consumed either way, scaled
by a zero amplitude when not jittering), admits them as one batch, and
pushes one color group with a palette draw. -/
def addParticleGrid (ll ur : I3) (mass : ℚ) (addJitter : Bool) (env : Env) (s : PS) : PS :=
  let start : ℤ := (s.numParticles : ℤ)
  let jitter := if addJitter then s.particleRadius * (1 / 100) else 0
  let distance := s.particleRadius * (1001 / 500)
  let count := gridCount ll ur s.particleRadius
  let cx := count.x.toNat
  let cy := count.y.toNat
  let cz := count.z.toNat
  let arraySize := cx * cy * cz
  let posL := latticeJitterPos ll distance jitter env.rnd s.rngIdx cx cy cz
  let velL := List.replicate arraySize (V4.mk 0 0 0 0)
  let wL := List.replicate arraySize (floatRecip mass)
  let roL := List.replicate arraySize (1 : ℚ)
  let phL := List.replicate arraySize SOLID
  let s1 := addParticleMultiple posL velL wL roL phL arraySize
    { s with rngIdx := s.rngIdx + 3 * arraySize }
  { s1 with
    colorIndex := s1.colorIndex ++ [(start, (s1.numParticles : ℤ))]
    colors := s1.colors ++ [env.palette (s.rngIdx + 3 * arraySize)]
    rngIdx := s.rngIdx + 3 * arraySize + 1 }

/-- Cloth sheet positions of ParticleSystem::addHorizCloth
(particlesystem.cpp:458): x = ll.x + x*spacing.x, constant height
y = spacing.y, z = ll.y + z*spacing.z.  No jitter term appears in the
source for this builder. -/
def clothPos (ll : I2) (spacing : V3) (cx cy : ℕ) : List V4 :=
  (List.range cy).flatMap fun z =>
    (List.range cx).map fun x =>
      ⟨(ll.x : ℚ) + (x : ℚ) * spacing.x, spacing.y,
       (ll.y : ℚ) + (z : ℚ) * spacing.z, 1⟩

/-- Distance constraints written by the addHorizCloth cell loop
(particlesystem.cpp:470,481): per cell, first the horizontal link to the
previous column when x is positive, then the vertical link to the
previous row when z is positive. -/
def clothDistCons (start cx cy : ℕ) (dist : V2) : List ((ℕ × ℕ) × ℚ) :=
  (List.range cy).flatMap fun z =>
    (List.range cx).flatMap fun x =>
      let pi := start + z * cx + x
      (if 0 < x then [((pi - 1, pi), dist.x)] else []) ++
      (if 0 < z then [((pi - cx, pi), dist.y)] else [])

/-- Point constraints written by the addHorizCloth cell loop
(particlesystem.cpp:475,486,492,498): the x = 0 column always, plus the
z = 0 row and the far column and row when holdEdges is set, in the
source's write order (corner cells are pinned more than once). -/
def clothPoints (ll : I2) (spacing : V3) (start cx cy : ℕ) (holdEdges : Bool) :
    List (ℕ × V3) :=
  (List.range cy).flatMap fun z =>
    (List.range cx).flatMap fun x =>
      let pi := start + z * cx + x
      let p : V3 := ⟨(ll.x : ℚ) + (x : ℚ) * spacing.x, spacing.y,
                     (ll.y : ℚ) + (z : ℚ) * spacing.z⟩
      (if x = 0 then [(pi, p)] else []) ++
      (if z = 0 ∧ holdEdges = true then [(pi, p)] else []) ++
      (if x = cx - 1 ∧ holdEdges = true then [(pi, p)] else []) ++
      (if z = cy - 1 ∧ holdEdges = true then [(pi, p)] else [])

/-- ParticleSystem::addHorizCloth (particlesystem.cpp:425): builds a
horizontal cloth sheet of RIGID particles, admits them as one batch,
then appends the point and distance constraints generated by the cell
loop, pushes one color group with a palette draw, and bumps the rigid
group index.  The declared numDists and numPoints counts equal the
number of constraints actually written for positive axis counts. -/
def addHorizCloth (ll ur : I2) (spacing : V3) (dist : V2) (mass : ℚ)
    (holdEdges : Bool) (env : Env) (s : PS) : PS :=
  let start := s.numParticles
  let count := clothCount ll ur spacing
  let cx := count.x.toNat
  let cy := count.y.toNat
  let arraySize := cx * cy
  let numDists := (cx - 1) * (cy - 1) + cx * cy - 1
  let numPoints := if holdEdges then 2 * (cx + cy) else cy
  let posL := clothPos ll spacing cx cy
  let velL := List.replicate arraySize (V4.mk 0 0 0 0)
  let wL := List.replicate arraySize (floatRecip mass)
  let roL := List.replicate arraySize (1 : ℚ)
  let phL := List.replicate arraySize (RIGID + (s.rigidIndex : ℤ))
  let pts := clothPoints ll spacing start cx cy holdEdges
  let dcs := clothDistCons start cx cy dist
  let s1 := addParticleMultiple posL velL wL roL phL arraySize s
  let s2 := addPointConstraint (pts.map Prod.fst) (pts.map Prod.snd) numPoints s1
  let s3 := addDistanceConstraint (dcs.map Prod.fst) (dcs.map Prod.snd) numDists s2
  { s3 with
    colorIndex := s3.colorIndex ++ [((start : ℤ), (s3.numParticles : ℤ))]
    colors := s3.colors ++ [env.palette s.rngIdx]
    rigidIndex := s3.rigidIndex + 1
    rngIdx := s.rngIdx + 1 }

/-- ParticleSystem::addRope (particlesystem.cpp:523): numLinks + 1 RIGID
particles from start along spacing, one batch admission, numLinks
distance constraints of rest length dist between consecutive indices, an
optional pin of the first rope particle at start, one color group with a
palette draw, and a rigid group index bump. -/
def addRope (rStart spacing : V3) (dist : ℚ) (numLinks : ℕ) (mass : ℚ)
    (constrainStart : Bool) (env : Env) (s : PS) : PS :=
  let startI := s.numParticles
  let arraySize := numLinks + 1
  let posL : List V4 :=
    ⟨rStart.x, rStart.y, rStart.z, 1⟩ ::
      (List.range numLinks).map fun k =>
        ⟨rStart.x + ((k + 1 : ℕ) : ℚ) * spacing.x,
         rStart.y + ((k + 1 : ℕ) : ℚ) * spacing.y,
         rStart.z + ((k + 1 : ℕ) : ℚ) * spacing.z, 1⟩
  let indicesD := (List.range numLinks).map fun k => (startI + k, startI + k + 1)
  let dists := List.replicate numLinks dist
  let velL := List.replicate arraySize (V4.mk 0 0 0 0)
  let wL := List.replicate arraySize (floatRecip mass)
  let roL := List.replicate arraySize (1 : ℚ)
  let phL := List.replicate arraySize (RIGID + (s.rigidIndex : ℤ))
  let s1 := addParticleMultiple posL velL wL roL phL arraySize s
  let s2 := addDistanceConstraint indicesD dists numLinks s1
  let s3 := if constrainStart
    then addPointConstraint [startI] [⟨rStart.x, rStart.y, rStart.z⟩] 1 s2
    else s2
  { s3 with
    colorIndex := s3.colorIndex ++ [((startI : ℤ), (s3.numParticles : ℤ))]
    colors := s3.colors ++ [env.palette s.rngIdx]
    rigidIndex := s3.rigidIndex + 1
    rngIdx := s.rngIdx + 1 }

/-- The strict sphere membership test of addStaticSphere
(particlesystem.cpp:599), length(p - center) < radius, stated on squared
lengths, which is equivalent for the nonnegative radii of defined uses
since the embedded scalars are exact. -/
def inSphere (p : V4) (center : V3) (radius : ℚ) : Bool :=
  decide (0 < radius) &&
    decide ((p.x - center.x) ^ 2 + (p.y - center.y) ^ 2 + (p.z - center.z) ^ 2
      < radius ^ 2)

/-- ParticleSystem::addStaticSphere (particlesystem.cpp:572): keeps the
lattice points strictly inside the sphere inscribed on the box's x
extent, admits them as one batch of RIGID particles with inverse mass
fixed at 0.01, pins every one of them in place, pushes one color group
with a palette draw, and bumps the rigid group index. -/
def addStaticSphere (ll ur : I3) (spacing : ℚ) (env : Env) (s : PS) : PS :=
  let startI := s.numParticles
  let count := sphereCount ll ur spacing
  let radius := ((ur.x - ll.x : ℤ) : ℚ) * (1 / 2)
  let center : V3 := ⟨(ll.x : ℚ) + radius, (ll.y : ℚ) + radius, (ll.z : ℚ) + radius⟩
  let cand : List V4 :=
    (List.range count.z.toNat).flatMap fun z =>
      (List.range count.y.toNat).flatMap fun y =>
        (List.range count.x.toNat).map fun x =>
          ⟨(ll.x : ℚ) + (x : ℚ) * spacing, (ll.y : ℚ) + (y : ℚ) * spacing,
           (ll.z : ℚ) + (z : ℚ) * spacing, 1⟩
  let kept := cand.filter fun p => inSphere p center radius
  let arraySize := kept.length
  let indices := (List.range arraySize).map fun i => startI + i
  let points := kept.map fun p => V3.mk p.x p.y p.z
  let velL := List.replicate arraySize (V4.mk 0 0 0 0)
  let wL := List.replicate arraySize (some (1 / 100) : Option ℚ)
  let roL := List.replicate arraySize (1 : ℚ)
  let phL := List.replicate arraySize (RIGID + (s.rigidIndex : ℤ))
  let s1 := addParticleMultiple kept velL wL roL phL arraySize s
  let s2 := addPointConstraint indices points arraySize s1
  { s2 with
    colorIndex := s2.colorIndex ++ [((startI : ℤ), (s2.numParticles : ℤ))]
    colors := s2.colors ++ [env.palette s.rngIdx]
    rigidIndex := s2.rigidIndex + 1
    rngIdx := s.rngIdx + 1 }

/-- Labels for the simulation phases invoked by ParticleSystem::update
(particlesystem.cpp:135): position prediction (integrateSystem), the
eight kernel calls of one solver iteration (calcHash, sortParticles,
reorderDataAndFindCellStart, collide, solveFluids, collideWorld,
solveDistanceConstraints, solvePointConstraints), velocity
reconciliation (calcVelocity), and the insertion-queue drain
(addNewStuff). -/
inductive StepPhase where
  | predictP
  | hashP
  | sortP
  | rangeP
  | collideP
  | fluidP
  | worldP
  | distP
  | pointP
  | velP
  | drainP
deriving DecidableEq

/-- The kernel-call sequence of one iteration of the solver for-loop of
ParticleSystem::update (particlesystem.cpp:160). -/
def iterPhases : List StepPhase :=
  [.hashP, .sortP, .rangeP, .collideP, .fluidP, .worldP, .distP, .pointP]

/-- Trace of the solver for-loop: each successive iteration's phases are
appended after those of the iterations already executed. -/
def loopTrace : ℕ → List StepPhase
  | 0 => []
  | n + 1 => loopTrace n ++ iterPhases

/-- Phase trace of ParticleSystem::update (particlesystem.cpp:135): with
an empty store only the queue drain runs; otherwise predict, the
solver-iteration loop, velocity reconciliation, then the drain.  Buffer
map/unmap and the parameter upload move no simulation state and are
omitted. -/
def updateTrace (numParticles iters : ℕ) : List StepPhase :=
  if numParticles = 0 then [.drainP]
  else .predictP :: (loopTrace iters ++ [.velP, .drainP])

/-- The extern CUDA kernels invoked by update, abstracted as state
transformers (their implementations live outside src); integrateSystem
and calcVelocity receive the clamped timestep, the others only the
state. -/
structure Kernels where
  integrateSystem : ℚ → PS → PS
  calcHash : PS → PS
  sortParticles : PS → PS
  reorderDataAndFindCellStart : PS → PS
  collide : PS → PS
  solveFluids : PS → PS
  collideWorld : PS → PS
  solveDistanceConstraints : PS → PS
  solvePointConstraints : PS → PS
  calcVelocity : ℚ → PS → PS

/-- ParticleSystem::update (particlesystem.cpp:135): clamp the timestep
to 0.05, drain the queues and return if the store is empty, otherwise
integrate with the clamped timestep, run solverIterations iterations of
the eight-phase constraint loop, reconcile velocity with the clamped
timestep, and finally drain the insertion queues. -/
def update (K : Kernels) (deltaTime : ℚ) (s : PS) : PS :=
  let dt := min deltaTime (1 / 20)
  if s.numParticles = 0 then addNewStuff s
  else
    let s1 := K.integrateSystem dt s
    let s2 := (List.range s.solverIterations).foldl
      (fun t _ =>
        K.solvePointConstraints (K.solveDistanceConstraints (K.collideWorld
          (K.solveFluids (K.collide (K.reorderDataAndFindCellStart
            (K.sortParticles (K.calcHash t))))))))
      s1
    addNewStuff (K.calcVelocity dt s2)

/-- The admission operations of the engine's public surface: single
admission, batch admission, an insertion-queue drain, the five shape
builders, and the two enqueue calls. -/
inductive Op where
  | particle (p v : V4) (mass restDensity : ℚ) (ph : ℤ)
  | multiple (p v : List V4) (wIn : List (Option ℚ)) (roIn : List ℚ)
      (phIn : List ℤ) (n : ℕ)
  | drain
  | rope (rStart spacing : V3) (dist : ℚ) (numLinks : ℕ) (mass : ℚ)
      (constrainStart : Bool)
  | fluid (ll ur : I3) (mass density : ℚ) (color : V3)
  | grid (ll ur : I3) (mass : ℚ) (addJitter : Bool)
  | cloth (ll ur : I2) (spacing : V3) (dist : V2) (mass : ℚ) (holdEdges : Bool)
  | sphere (ll ur : I3) (spacing : ℚ)
  | enqueueParticle (p v : V3) (mass : ℚ)
  | enqueueFluid (p c : V3) (mass density : ℚ)

/-- Dispatch of one admission operation to its engine entry point. -/
def applyOp (env : Env) (op : Op) (s : PS) : PS :=
  match op with
  | .particle p v mass restDensity ph => addParticle p v mass restDensity ph s
  | .multiple p v wIn roIn phIn n => addParticleMultiple p v wIn roIn phIn n s
  | .drain => addNewStuff s
  | .rope rStart spacing dist numLinks mass constrainStart =>
      addRope rStart spacing dist numLinks mass constrainStart env s
  | .fluid ll ur mass density color => addFluid ll ur mass density color env s
  | .grid ll ur mass addJitter => addParticleGrid ll ur mass addJitter env s
  | .cloth ll ur spacing dist mass holdEdges =>
      addHorizCloth ll ur spacing dist mass holdEdges env s
  | .sphere ll ur spacing => addStaticSphere ll ur spacing env s
  | .enqueueParticle p v mass => setParticleToAdd env p v mass s
  | .enqueueFluid p c mass density => setFluidToAdd p c mass density s

/-- A sequence of admission operations run left to right. -/
def runOps (env : Env) (ops : List Op) (s : PS) : PS :=
  ops.foldl (fun t op => applyOp env op t) s

/-- A deterministic environment used for concrete evaluations: every
frand draw is 0 and the palette is constantly black. -/
def env0 : Env := ⟨fun _ => 0, fun _ => ⟨0, 0, 0, 0⟩⟩

/-- A deterministic environment whose frand draws are all 1, so any
applied jitter term (2r - 1) * amplitude is the full positive
amplitude. -/
def envOne : Env := ⟨fun _ => 1, fun _ => ⟨0, 0, 0, 0⟩⟩

/-- Identity kernel semantics, used to instantiate kernel-parametric
theorems on concrete states. -/
def idKernels : Kernels :=
  ⟨fun _ s => s, id, id, id, id, id, id, id, id, fun _ s => s⟩

/-! Helper lemmas about the engine operations. -/

theorem addParticle_numParticles (p v : V4) (m r : ℚ) (ph : ℤ) (s : PS) :
    (addParticle p v m r ph s).numParticles =
      if s.numParticles = s.maxParticles then s.numParticles
      else s.numParticles + 1 := by
  unfold addParticle; split <;> rfl

@[simp] theorem addParticle_maxParticles (p v : V4) (m r : ℚ) (ph : ℤ) (s : PS) :
    (addParticle p v m r ph s).maxParticles = s.maxParticles := by
  unfold addParticle; split <;> rfl

@[simp] theorem addParticle_colors (p v : V4) (m r : ℚ) (ph : ℤ) (s : PS) :
    (addParticle p v m r ph s).colors = s.colors := by
  unfold addParticle; split <;> rfl

@[simp] theorem addParticle_colorIndex (p v : V4) (m r : ℚ) (ph : ℤ) (s : PS) :
    (addParticle p v m r ph s).colorIndex = s.colorIndex := by
  unfold addParticle; split <;> rfl

theorem addParticle_eq_of_full (p v : V4) (m r : ℚ) (ph : ℤ) (s : PS)
    (h : s.numParticles = s.maxParticles) : addParticle p v m r ph s = s := by
  unfold addParticle; rw [if_pos h]

theorem addParticleMultiple_numParticles (p v : List V4) (wIn : List (Option ℚ))
    (roIn : List ℚ) (phIn : List ℤ) (n : ℕ) (s : PS) :
    (addParticleMultiple p v wIn roIn phIn n s).numParticles =
      if s.maxParticles ≤ s.numParticles + n then s.numParticles
      else s.numParticles + n := by
  unfold addParticleMultiple; split <;> rfl

@[simp] theorem addParticleMultiple_maxParticles (p v : List V4) (wIn : List (Option ℚ))
    (roIn : List ℚ) (phIn : List ℤ) (n : ℕ) (s : PS) :
    (addParticleMultiple p v wIn roIn phIn n s).maxParticles = s.maxParticles := by
  unfold addParticleMultiple; split <;> rfl

@[simp] theorem addParticleMultiple_colors (p v : List V4) (wIn : List (Option ℚ))
    (roIn : List ℚ) (phIn : List ℤ) (n : ℕ) (s : PS) :
    (addParticleMultiple p v wIn roIn phIn n s).colors = s.colors := by
  unfold addParticleMultiple; split <;> rfl

@[simp] theorem addParticleMultiple_colorIndex (p v : List V4) (wIn : List (Option ℚ))
    (roIn : List ℚ) (phIn : List ℤ) (n : ℕ) (s : PS) :
    (addParticleMultiple p v wIn roIn phIn n s).colorIndex = s.colorIndex := by
  unfold addParticleMultiple; split <;> rfl

@[simp] theorem addParticleMultiple_distCons (p v : List V4) (wIn : List (Option ℚ))
    (roIn : List ℚ) (phIn : List ℤ) (n : ℕ) (s : PS) :
    (addParticleMultiple p v wIn roIn phIn n s).distCons = s.distCons := by
  unfold addParticleMultiple; split <;> rfl

@[simp] theorem addParticleMultiple_pointCons (p v : List V4) (wIn : List (Option ℚ))
    (roIn : List ℚ) (phIn : List ℤ) (n : ℕ) (s : PS) :
    (addParticleMultiple p v wIn roIn phIn n s).pointCons = s.pointCons := by
  unfold addParticleMultiple; split <;> rfl

theorem addParticleMultiple_eq_of_ge (p v : List V4) (wIn : List (Option ℚ))
    (roIn : List ℚ) (phIn : List ℤ) (n : ℕ) (s : PS)
    (h : s.maxParticles ≤ s.numParticles + n) :
    addParticleMultiple p v wIn roIn phIn n s = s := by
  unfold addParticleMultiple; rw [if_pos h]

@[simp] theorem addDistanceConstraint_numParticles (i : List (ℕ × ℕ)) (d : List ℚ)
    (n : ℕ) (s : PS) : (addDistanceConstraint i d n s).numParticles = s.numParticles := rfl

@[simp] theorem addDistanceConstraint_maxParticles (i : List (ℕ × ℕ)) (d : List ℚ)
    (n : ℕ) (s : PS) : (addDistanceConstraint i d n s).maxParticles = s.maxParticles := rfl

@[simp] theorem addDistanceConstraint_pos (i : List (ℕ × ℕ)) (d : List ℚ)
    (n : ℕ) (s : PS) : (addDistanceConstraint i d n s).pos = s.pos := rfl

@[simp] theorem addDistanceConstraint_colorIndex (i : List (ℕ × ℕ)) (d : List ℚ)
    (n : ℕ) (s : PS) : (addDistanceConstraint i d n s).colorIndex = s.colorIndex := rfl

@[simp] theorem addDistanceConstraint_colors (i : List (ℕ × ℕ)) (d : List ℚ)
    (n : ℕ) (s : PS) : (addDistanceConstraint i d n s).colors = s.colors := rfl

@[simp] theorem addDistanceConstraint_pointCons (i : List (ℕ × ℕ)) (d : List ℚ)
    (n : ℕ) (s : PS) : (addDistanceConstraint i d n s).pointCons = s.pointCons := rfl

@[simp] theorem addPointConstraint_numParticles (i : List ℕ) (pts : List V3)
    (n : ℕ) (s : PS) : (addPointConstraint i pts n s).numParticles = s.numParticles := rfl

@[simp] theorem addPointConstraint_maxParticles (i : List ℕ) (pts : List V3)
    (n : ℕ) (s : PS) : (addPointConstraint i pts n s).maxParticles = s.maxParticles := rfl

@[simp] theorem addPointConstraint_pos (i : List ℕ) (pts : List V3)
    (n : ℕ) (s : PS) : (addPointConstraint i pts n s).pos = s.pos := rfl

@[simp] theorem addPointConstraint_colorIndex (i : List ℕ) (pts : List V3)
    (n : ℕ) (s : PS) : (addPointConstraint i pts n s).colorIndex = s.colorIndex := rfl

@[simp] theorem addPointConstraint_colors (i : List ℕ) (pts : List V3)
    (n : ℕ) (s : PS) : (addPointConstraint i pts n s).colors = s.colors := rfl

@[simp] theorem addPointConstraint_distCons (i : List ℕ) (pts : List V3)
    (n : ℕ) (s : PS) : (addPointConstraint i pts n s).distCons = s.distCons := rfl

/-- A projection that every step of a fold leaves unchanged is unchanged
by the whole fold. -/
theorem foldl_proj_eq {α β : Type} (f : PS → β) (g : PS → α → PS)
    (hg : ∀ s a, f (g s a) = f s) :
    ∀ (l : List α) (s : PS), f (l.foldl g s) = f s := by
  intro l
  induction l with
  | nil => intro s; rfl
  | cons a l ih =>
      intro s
      rw [List.foldl_cons, ih (g s a), hg s a]

/-- A fold whose steps all preserve a predicate preserves it. -/
theorem foldl_preserve {α : Type} (P : PS → Prop) (g : PS → α → PS)
    (hg : ∀ s a, P s → P (g s a)) :
    ∀ (l : List α) (s : PS), P s → P (l.foldl g s) := by
  intro l
  induction l with
  | nil => intro s hs; exact hs
  | cons a l ih =>
      intro s hs
      rw [List.foldl_cons]
      exact ih (g s a) (hg s a hs)

/-- A fold of full-capacity no-op admissions is the identity. -/
theorem foldl_fixed {α : Type} (g : PS → α → PS) (s : PS)
    (hg : ∀ a, g s a = s) : ∀ (l : List α), l.foldl g s = s := by
  intro l
  induction l with
  | nil => rfl
  | cons a l ih => rw [List.foldl_cons, hg a, ih]

theorem addParticle_cap (p v : V4) (m r : ℚ) (ph : ℤ) (s : PS)
    (h : s.numParticles ≤ s.maxParticles) :
    (addParticle p v m r ph s).numParticles ≤ (addParticle p v m r ph s).maxParticles := by
  rw [addParticle_numParticles, addParticle_maxParticles]
  split <;> omega

theorem addRope_numParticles (rS sp : V3) (d : ℚ) (nl : ℕ) (m : ℚ) (cs : Bool)
    (e : Env) (s : PS) :
    (addRope rS sp d nl m cs e s).numParticles =
      if s.maxParticles ≤ s.numParticles + (nl + 1) then s.numParticles
      else s.numParticles + (nl + 1) := by
  cases cs <;> simp [addRope, addParticleMultiple_numParticles]

@[simp] theorem addRope_maxParticles (rS sp : V3) (d : ℚ) (nl : ℕ) (m : ℚ) (cs : Bool)
    (e : Env) (s : PS) : (addRope rS sp d nl m cs e s).maxParticles = s.maxParticles := by
  cases cs <;> simp [addRope]

theorem addFluid_numParticles (ll ur : I3) (m d : ℚ) (c : V3) (e : Env) (s : PS) :
    ∃ n, (addFluid ll ur m d c e s).numParticles =
      if s.maxParticles ≤ s.numParticles + n then s.numParticles
      else s.numParticles + n := by
  simp [addFluid, addParticleMultiple_numParticles]
  exact ⟨_, rfl⟩

@[simp] theorem addFluid_maxParticles (ll ur : I3) (m d : ℚ) (c : V3) (e : Env) (s : PS) :
    (addFluid ll ur m d c e s).maxParticles = s.maxParticles := by
  simp [addFluid]

theorem addParticleGrid_numParticles (ll ur : I3) (m : ℚ) (aj : Bool) (e : Env) (s : PS) :
    ∃ n, (addParticleGrid ll ur m aj e s).numParticles =
      if s.maxParticles ≤ s.numParticles + n then s.numParticles
      else s.numParticles + n := by
  simp [addParticleGrid, addParticleMultiple_numParticles]
  exact ⟨_, rfl⟩

@[simp] theorem addParticleGrid_maxParticles (ll ur : I3) (m : ℚ) (aj : Bool)
    (e : Env) (s : PS) :
    (addParticleGrid ll ur m aj e s).maxParticles = s.maxParticles := by
  simp [addParticleGrid]

theorem addHorizCloth_numParticles (ll ur : I2) (sp : V3) (d : V2) (m : ℚ) (he : Bool)
    (e : Env) (s : PS) :
    ∃ n, (addHorizCloth ll ur sp d m he e s).numParticles =
      if s.maxParticles ≤ s.numParticles + n then s.numParticles
      else s.numParticles + n := by
  simp [addHorizCloth, addParticleMultiple_numParticles]
  exact ⟨_, rfl⟩

@[simp] theorem addHorizCloth_maxParticles (ll ur : I2) (sp : V3) (d : V2) (m : ℚ)
    (he : Bool) (e : Env) (s : PS) :
    (addHorizCloth ll ur sp d m he e s).maxParticles = s.maxParticles := by
  simp [addHorizCloth]

theorem addStaticSphere_numParticles (ll ur : I3) (sp : ℚ) (e : Env) (s : PS) :
    ∃ n, (addStaticSphere ll ur sp e s).numParticles =
      if s.maxParticles ≤ s.numParticles + n then s.numParticles
      else s.numParticles + n := by
  simp [addStaticSphere, addParticleMultiple_numParticles]
  exact ⟨_, rfl⟩

@[simp] theorem addStaticSphere_maxParticles (ll ur : I3) (sp : ℚ) (e : Env) (s : PS) :
    (addStaticSphere ll ur sp e s).maxParticles = s.maxParticles := by
  simp [addStaticSphere]

theorem addParticles_eq_of_full (s : PS) (h : s.numParticles = s.maxParticles) :
    addParticles s = { s with particlesToAdd := [] } := by
  unfold addParticles
  apply foldl_fixed
  intro a
  exact addParticle_eq_of_full _ _ _ _ _ _ h

@[simp] theorem addParticles_maxParticles (s : PS) :
    (addParticles s).maxParticles = s.maxParticles := by
  unfold addParticles
  exact foldl_proj_eq PS.maxParticles drainParticleStep
    (fun t a => addParticle_maxParticles _ _ _ _ _ _) _ _

theorem addParticles_cap (s : PS) (h : s.numParticles ≤ s.maxParticles) :
    (addParticles s).numParticles ≤ (addParticles s).maxParticles := by
  unfold addParticles
  exact foldl_preserve (fun t => t.numParticles ≤ t.maxParticles) drainParticleStep
    (fun t a ht => addParticle_cap _ _ _ _ _ t ht) _ _ h

@[simp] theorem addFluids_maxParticles (s : PS) :
    (addFluids s).maxParticles = s.maxParticles := by
  unfold addFluids
  split
  · rfl
  · dsimp only
    exact foldl_proj_eq PS.maxParticles drainFluidStep
      (fun t a => addParticle_maxParticles _ _ _ _ _ _) _ _

theorem addFluids_cap (s : PS) (h : s.numParticles ≤ s.maxParticles) :
    (addFluids s).numParticles ≤ (addFluids s).maxParticles := by
  unfold addFluids
  split
  · exact h
  · dsimp only
    exact foldl_preserve (fun t => t.numParticles ≤ t.maxParticles) drainFluidStep
      (fun t a ht => addParticle_cap _ _ _ _ _ t ht) _ _ h

theorem addFluids_num_of_full (s : PS) (h : s.numParticles = s.maxParticles) :
    (addFluids s).numParticles = s.numParticles := by
  unfold addFluids
  split
  · rfl
  · dsimp only
    have hfix := foldl_fixed drainFluidStep ({ s with fluidsToAdd := [] } : PS)
      (fun a => addParticle_eq_of_full _ _ _ _ _ _ h) s.fluidsToAdd
    rw [hfix]

theorem addNewStuff_cap (s : PS) (h : s.numParticles ≤ s.maxParticles) :
    (addNewStuff s).numParticles ≤ (addNewStuff s).maxParticles := by
  unfold addNewStuff
  exact addFluids_cap _ (addParticles_cap s h)

theorem addNewStuff_num_of_full (s : PS) (h : s.numParticles = s.maxParticles) :
    (addNewStuff s).numParticles = s.numParticles := by
  unfold addNewStuff
  rw [addParticles_eq_of_full s h]
  exact addFluids_num_of_full _ h

@[simp] theorem addNewStuff_maxParticles (s : PS) :
    (addNewStuff s).maxParticles = s.maxParticles := by
  unfold addNewStuff
  rw [addFluids_maxParticles, addParticles_maxParticles]

theorem applyOp_maxParticles (env : Env) (op : Op) (s : PS) :
    (applyOp env op s).maxParticles = s.maxParticles := by
  cases op <;> simp [applyOp, setParticleToAdd, setFluidToAdd]

theorem applyOp_cap (env : Env) (op : Op) (s : PS)
    (h : s.numParticles ≤ s.maxParticles) :
    (applyOp env op s).numParticles ≤ (applyOp env op s).maxParticles := by
  cases op with
  | particle p v m r ph => exact addParticle_cap p v m r ph s h
  | multiple p v wIn roIn phIn n =>
      dsimp only [applyOp]
      rw [addParticleMultiple_numParticles, addParticleMultiple_maxParticles]
      split <;> omega
  | drain => exact addNewStuff_cap s h
  | rope rS sp d nl m cs =>
      dsimp only [applyOp]
      rw [addRope_numParticles, addRope_maxParticles]
      split <;> omega
  | fluid ll ur m d c =>
      dsimp only [applyOp]
      obtain ⟨n, hn⟩ := addFluid_numParticles ll ur m d c env s
      rw [hn, addFluid_maxParticles]
      split <;> omega
  | grid ll ur m aj =>
      dsimp only [applyOp]
      obtain ⟨n, hn⟩ := addParticleGrid_numParticles ll ur m aj env s
      rw [hn, addParticleGrid_maxParticles]
      split <;> omega
  | cloth ll ur sp d m he =>
      dsimp only [applyOp]
      obtain ⟨n, hn⟩ := addHorizCloth_numParticles ll ur sp d m he env s
      rw [hn, addHorizCloth_maxParticles]
      split <;> omega
  | sphere ll ur sp =>
      dsimp only [applyOp]
      obtain ⟨n, hn⟩ := addStaticSphere_numParticles ll ur sp env s
      rw [hn, addStaticSphere_maxParticles]
      split <;> omega
  | enqueueParticle p v m => exact h
  | enqueueFluid p c m d => exact h

theorem applyOp_num_of_full (env : Env) (op : Op) (s : PS)
    (h : s.numParticles = s.maxParticles) :
    (applyOp env op s).numParticles = s.numParticles := by
  cases op with
  | particle p v m r ph =>
      dsimp only [applyOp]
      rw [addParticle_numParticles, if_pos h]
  | multiple p v wIn roIn phIn n =>
      dsimp only [applyOp]
      rw [addParticleMultiple_numParticles, if_pos (by omega)]
  | drain => exact addNewStuff_num_of_full s h
  | rope rS sp d nl m cs =>
      dsimp only [applyOp]
      rw [addRope_numParticles, if_pos (by omega)]
  | fluid ll ur m d c =>
      dsimp only [applyOp]
      obtain ⟨n, hn⟩ := addFluid_numParticles ll ur m d c env s
      rw [hn, if_pos (by omega)]
  | grid ll ur m aj =>
      dsimp only [applyOp]
      obtain ⟨n, hn⟩ := addParticleGrid_numParticles ll ur m aj env s
      rw [hn, if_pos (by omega)]
  | cloth ll ur sp d m he =>
      dsimp only [applyOp]
      obtain ⟨n, hn⟩ := addHorizCloth_numParticles ll ur sp d m he env s
      rw [hn, if_pos (by omega)]
  | sphere ll ur sp =>
      dsimp only [applyOp]
      obtain ⟨n, hn⟩ := addStaticSphere_numParticles ll ur sp env s
      rw [hn, if_pos (by omega)]
  | enqueueParticle p v m => rfl
  | enqueueFluid p c m d => rfl

theorem loopTrace_eq_join (n : ℕ) :
    loopTrace n = (List.replicate n iterPhases).flatten := by
  induction n with
  | zero => rfl
  | succ k ih =>
      have comm : ∀ j, (List.replicate j iterPhases).flatten ++ iterPhases =
          iterPhases ++ (List.replicate j iterPhases).flatten := by
        intro j
        induction j with
        | zero => simp
        | succ i ihj =>
            simp only [List.replicate_succ, List.flatten_cons]
            rw [List.append_assoc, ihj]
      rw [loopTrace, ih, comm k, List.replicate_succ, List.flatten_cons]

/-! Claim theorems. -/

/-- C1: for every sequence of admission operations (single admission,
batch admission, queue drains, shape builders, enqueues) on an engine
constructed with capacity maxParticles, the invariant
0 <= numParticles <= maxParticles holds after every operation (the lower
bound is intrinsic to the natural-number counter), and any admission
operation arriving at full capacity leaves numParticles unchanged. -/
theorem admission_capacity_invariant (env : Env) (radius : ℚ) (maxP iters : ℕ)
    (ops : List Op) :
    (runOps env ops (initPS radius maxP iters)).numParticles ≤ maxP ∧
    ∀ (op : Op) (s : PS), s.numParticles = s.maxParticles →
      (applyOp env op s).numParticles = s.numParticles := by
  constructor
  · have h := foldl_preserve
      (fun t => t.numParticles ≤ t.maxParticles ∧ t.maxParticles = maxP)
      (fun t op => applyOp env op t)
      (fun t op ht => ⟨applyOp_cap env op t ht.1,
        (applyOp_maxParticles env op t).trans ht.2⟩)
      ops (initPS radius maxP iters) ⟨Nat.zero_le _, rfl⟩
    exact le_trans h.1 (le_of_eq h.2)
  · intro op s h
    exact applyOp_num_of_full env op s h

/-- Witness for admission_capacity_invariant: a concrete three-operation
run against capacity 3, and a concrete full engine (capacity 0) on which
a single admission leaves numParticles unchanged. -/
theorem admission_capacity_invariant_witness :
    (runOps env0 [Op.particle ⟨0, 0, 0, 1⟩ ⟨0, 0, 0, 0⟩ 1 1 0, Op.drain,
        Op.rope ⟨0, 0, 0⟩ ⟨1, 0, 0⟩ 1 2 1 true] (initPS 1 3 2)).numParticles ≤ 3 ∧
    (initPS 1 0 2).numParticles = (initPS 1 0 2).maxParticles ∧
    (applyOp env0 (Op.particle ⟨0, 0, 0, 1⟩ ⟨0, 0, 0, 0⟩ 1 1 0)
        (initPS 1 0 2)).numParticles = (initPS 1 0 2).numParticles :=
  ⟨(admission_capacity_invariant env0 1 3 2 _).1, rfl,
   (admission_capacity_invariant env0 1 0 2 []).2 _ _ rfl⟩

/-- C4: on a non-empty particle store, the phase trace of update is
exactly predict, then solverIterations repetitions of the eight-phase
block (hash, sort, cell-range, collide, fluid solve, world collide,
distance solve, point solve), then velocity reconciliation, and the
insertion-queue drain strictly last. -/
theorem update_phase_order (n iters : ℕ) (h : n ≠ 0) :
    updateTrace n iters =
      StepPhase.predictP ::
        ((List.replicate iters iterPhases).flatten ++
          [StepPhase.velP, StepPhase.drainP]) := by
  unfold updateTrace
  rw [if_neg h, loopTrace_eq_join]

/-- Witness for update_phase_order at two particles and two solver
iterations. -/
theorem update_phase_order_witness :
    (2 : ℕ) ≠ 0 ∧
    updateTrace 2 2 =
      StepPhase.predictP ::
        ((List.replicate 2 iterPhases).flatten ++
          [StepPhase.velP, StepPhase.drainP]) :=
  ⟨by decide, update_phase_order 2 2 (by decide)⟩

/-- C6: for every timestep at least 0.05, update produces exactly the
state update of 0.05, because the timestep is clamped by
min deltaTime 0.05 before any phase runs; stated for every kernel
semantics, every state and every timestep at least the clamp bound. -/
theorem update_timestep_clamp (K : Kernels) (dt : ℚ) (s : PS)
    (h : (1 : ℚ) / 20 ≤ dt) :
    update K dt s = update K (1 / 20) s := by
  unfold update
  rw [min_eq_right h, min_self]

/-- Witness for update_timestep_clamp: dt = 10 against the clamp bound,
with identity kernels on a concrete engine. -/
theorem update_timestep_clamp_witness :
    (1 : ℚ) / 20 ≤ 10 ∧
    update idKernels 10 (initPS 1 4 2) = update idKernels (1 / 20) (initPS 1 4 2) :=
  ⟨by norm_num, update_timestep_clamp idKernels 10 (initPS 1 4 2) (by norm_num)⟩

/-- C2 fails as stated: a batch of 2 admitted against capacity 2 from an
empty store would not exceed capacity (0 + 2 is not greater than 2), so
the claim says it is admitted, yet the code's greater-or-equal guard
drops it and the whole engine state is unchanged. -/
theorem admission_noop_counterexample :
    (initPS 1 2 1).numParticles + 2 ≤ (initPS 1 2 1).maxParticles ∧
    addParticleMultiple [⟨0, 0, 0, 1⟩, ⟨1, 0, 0, 1⟩]
      [⟨0, 0, 0, 0⟩, ⟨0, 0, 0, 0⟩] [some 1, some 1] [1, 1] [0, 0] 2
      (initPS 1 2 1) = initPS 1 2 1 := by
  constructor
  · decide
  · decide

/-- C2 amended: single admission is a silent no-op exactly when
numParticles = maxParticles and otherwise increments numParticles; batch
admission of n >= 1 particles is a silent no-op exactly when
numParticles + n >= maxParticles (so the batch exactly filling capacity
is also dropped), and otherwise admits all n requested entries, growing
numParticles by n and the position array by the request. -/
theorem admission_noop_characterization (p v : V4) (m r : ℚ) (ph : ℤ)
    (posL velL : List V4) (wL : List (Option ℚ)) (roL : List ℚ) (phL : List ℤ)
    (n : ℕ) (s : PS) (hn : 1 ≤ n) :
    (addParticle p v m r ph s = s ↔ s.numParticles = s.maxParticles) ∧
    (addParticleMultiple posL velL wL roL phL n s = s ↔
      s.maxParticles ≤ s.numParticles + n) ∧
    (s.numParticles + n < s.maxParticles →
      (addParticleMultiple posL velL wL roL phL n s).numParticles =
          s.numParticles + n ∧
      (addParticleMultiple posL velL wL roL phL n s).pos =
          s.pos ++ posL.take n) ∧
    (s.numParticles ≠ s.maxParticles →
      (addParticle p v m r ph s).numParticles = s.numParticles + 1) := by
  refine ⟨⟨?_, ?_⟩, ⟨?_, ?_⟩, ?_, ?_⟩
  · intro h
    by_contra hne
    have h2 := congrArg PS.numParticles h
    rw [addParticle_numParticles, if_neg hne] at h2
    omega
  · intro h
    exact addParticle_eq_of_full p v m r ph s h
  · intro h
    by_contra hge
    have h2 := congrArg PS.numParticles h
    rw [addParticleMultiple_numParticles, if_neg hge] at h2
    omega
  · intro h
    exact addParticleMultiple_eq_of_ge posL velL wL roL phL n s h
  · intro h
    constructor
    · rw [addParticleMultiple_numParticles, if_neg (by omega)]
    · unfold addParticleMultiple
      rw [if_neg (by omega)]
  · intro h
    rw [addParticle_numParticles, if_neg h]

/-- Witness for admission_noop_characterization on a concrete engine of
capacity 5 holding 0 particles with a batch of size 1. -/
theorem admission_noop_characterization_witness :
    (1 : ℕ) ≤ 1 ∧
    ((addParticle ⟨0, 0, 0, 1⟩ ⟨0, 0, 0, 0⟩ 1 1 0 (initPS 1 5 2) = initPS 1 5 2 ↔
        (initPS 1 5 2).numParticles = (initPS 1 5 2).maxParticles) ∧
      (addParticleMultiple [⟨0, 0, 0, 1⟩] [⟨0, 0, 0, 0⟩] [some 1] [1] [0] 1
          (initPS 1 5 2) = initPS 1 5 2 ↔
        (initPS 1 5 2).maxParticles ≤ (initPS 1 5 2).numParticles + 1) ∧
      ((initPS 1 5 2).numParticles + 1 < (initPS 1 5 2).maxParticles →
        (addParticleMultiple [⟨0, 0, 0, 1⟩] [⟨0, 0, 0, 0⟩] [some 1] [1] [0] 1
            (initPS 1 5 2)).numParticles = (initPS 1 5 2).numParticles + 1 ∧
        (addParticleMultiple [⟨0, 0, 0, 1⟩] [⟨0, 0, 0, 0⟩] [some 1] [1] [0] 1
            (initPS 1 5 2)).pos =
          (initPS 1 5 2).pos ++ List.take 1 [⟨0, 0, 0, 1⟩]) ∧
      ((initPS 1 5 2).numParticles ≠ (initPS 1 5 2).maxParticles →
        (addParticle ⟨0, 0, 0, 1⟩ ⟨0, 0, 0, 0⟩ 1 1 0
            (initPS 1 5 2)).numParticles = (initPS 1 5 2).numParticles + 1)) :=
  ⟨by decide,
   admission_noop_characterization ⟨0, 0, 0, 1⟩ ⟨0, 0, 0, 0⟩ 1 1 0
     [⟨0, 0, 0, 1⟩] [⟨0, 0, 0, 0⟩] [some 1] [1] [0] 1 (initPS 1 5 2) (by decide)⟩

/-- C3 fails as stated: a rope of 5 links against a capacity-3 engine has
its 6-particle batch dropped, yet 5 distance constraints, 1 point
constraint and a color-group entry are still appended. -/
theorem dropped_batch_counterexample :
    (addRope ⟨0, 0, 0⟩ ⟨1, 0, 0⟩ 1 5 1 true env0 (initPS 1 3 2)).numParticles = 0 ∧
    (addRope ⟨0, 0, 0⟩ ⟨1, 0, 0⟩ 1 5 1 true env0 (initPS 1 3 2)).distCons.length = 5 ∧
    (addRope ⟨0, 0, 0⟩ ⟨1, 0, 0⟩ 1 5 1 true env0 (initPS 1 3 2)).pointCons.length = 1 ∧
    (addRope ⟨0, 0, 0⟩ ⟨1, 0, 0⟩ 1 5 1 true env0 (initPS 1 3 2)).colorIndex.length = 1 := by
  refine ⟨?_, ?_, ?_, ?_⟩ <;> decide

/-- C3 amended: when a rope's batch admission is dropped for capacity the
particle store itself is untouched (numParticles and the position array
are unchanged), but the builder still appends its numLinks distance
constraints, its optional point constraint and one color-group entry,
all referring to particle indices that were never admitted. -/
theorem dropped_batch_appends_constraints (rS sp : V3) (d : ℚ) (nl : ℕ) (m : ℚ)
    (cs : Bool) (e : Env) (s : PS)
    (h : s.maxParticles ≤ s.numParticles + (nl + 1)) :
    (addRope rS sp d nl m cs e s).numParticles = s.numParticles ∧
    (addRope rS sp d nl m cs e s).pos = s.pos ∧
    (addRope rS sp d nl m cs e s).distCons.length = s.distCons.length + nl ∧
    (addRope rS sp d nl m cs e s).pointCons.length =
      s.pointCons.length + (if cs then 1 else 0) ∧
    (addRope rS sp d nl m cs e s).colorIndex.length = s.colorIndex.length + 1 ∧
    (addRope rS sp d nl m cs e s).colors.length = s.colors.length + 1 := by
  cases cs with
  | false =>
      simp [addRope, addDistanceConstraint, addPointConstraint,
        List.length_zip, List.length_take]
      exact ⟨by rw [addParticleMultiple_numParticles, if_pos h],
             by rw [addParticleMultiple_eq_of_ge _ _ _ _ _ _ s h]⟩
  | true =>
      simp [addRope, addDistanceConstraint, addPointConstraint,
        List.length_zip, List.length_take]
      exact ⟨by rw [addParticleMultiple_numParticles, if_pos h],
             by rw [addParticleMultiple_eq_of_ge _ _ _ _ _ _ s h]⟩

/-- Witness for dropped_batch_appends_constraints: the concrete dropped
rope of the counterexample. -/
theorem dropped_batch_appends_constraints_witness :
    (initPS 1 3 2).maxParticles ≤ (initPS 1 3 2).numParticles + (5 + 1) ∧
    ((addRope ⟨0, 0, 0⟩ ⟨2, 0, 0⟩ 1 5 1 false env0 (initPS 1 3 2)).numParticles =
        (initPS 1 3 2).numParticles ∧
      (addRope ⟨0, 0, 0⟩ ⟨2, 0, 0⟩ 1 5 1 false env0 (initPS 1 3 2)).pos =
        (initPS 1 3 2).pos ∧
      (addRope ⟨0, 0, 0⟩ ⟨2, 0, 0⟩ 1 5 1 false env0 (initPS 1 3 2)).distCons.length =
        (initPS 1 3 2).distCons.length + 5 ∧
      (addRope ⟨0, 0, 0⟩ ⟨2, 0, 0⟩ 1 5 1 false env0 (initPS 1 3 2)).pointCons.length =
        (initPS 1 3 2).pointCons.length + (if false then 1 else 0) ∧
      (addRope ⟨0, 0, 0⟩ ⟨2, 0, 0⟩ 1 5 1 false env0 (initPS 1 3 2)).colorIndex.length =
        (initPS 1 3 2).colorIndex.length + 1 ∧
      (addRope ⟨0, 0, 0⟩ ⟨2, 0, 0⟩ 1 5 1 false env0 (initPS 1 3 2)).colors.length =
        (initPS 1 3 2).colors.length + 1) :=
  ⟨by decide,
   dropped_batch_appends_constraints ⟨0, 0, 0⟩ ⟨2, 0, 0⟩ 1 5 1 false env0
     (initPS 1 3 2) (by decide)⟩

/-- C5: the scripted rope scenario on a roomy engine: start (0,0,0),
spacing (1,0,0), rest length 1, 5 links, mass 1, pinned start.  Exactly
6 particles are admitted, exactly the 5 consecutive-index distance
constraints of rest length 1 are appended, and exactly one point
constraint pins the first rope particle (index 0) at (0,0,0). -/
theorem rope_script_scenario_check :
    (addRope ⟨0, 0, 0⟩ ⟨1, 0, 0⟩ 1 5 1 true env0 (initPS 1 100 4)).numParticles = 6 ∧
    (addRope ⟨0, 0, 0⟩ ⟨1, 0, 0⟩ 1 5 1 true env0 (initPS 1 100 4)).distCons =
      [((0, 1), 1), ((1, 2), 1), ((2, 3), 1), ((3, 4), 1), ((4, 5), 1)] ∧
    (addRope ⟨0, 0, 0⟩ ⟨1, 0, 0⟩ 1 5 1 true env0 (initPS 1 100 4)).pointCons =
      [(0, ⟨0, 0, 0⟩)] := by
  refine ⟨?_, ?_, ?_⟩ <;> decide

/-- The ParticleSystem::addParticleMultiple effect on the position array,
as an if-expression. -/
theorem addParticleMultiple_pos (p v : List V4) (wIn : List (Option ℚ))
    (roIn : List ℚ) (phIn : List ℤ) (n : ℕ) (s : PS) :
    (addParticleMultiple p v wIn roIn phIn n s).pos =
      if s.maxParticles ≤ s.numParticles + n then s.pos
      else s.pos ++ p.take n := by
  unfold addParticleMultiple; split <;> rfl

/-- With a zero jitter amplitude the lattice positions are independent of
the random stream and of the stream position. -/
theorem latticeJitterPos_zero_jitter (ll : I3) (distance : ℚ) (f g : ℕ → ℚ)
    (i j cx cy cz : ℕ) :
    latticeJitterPos ll distance 0 f i cx cy cz =
      latticeJitterPos ll distance 0 g j cx cy cz := by
  simp [latticeJitterPos]

/-- C7 names the intended behavior, but the code diverges from it: on
extent 4 with fluid spacing 2.5 (radius 1) every axis count evaluates to
1 while ceil(4 / 2.5) = 2; the grid builder (spacing 2.002) and the cloth
builder (spacing 2.5) diverge on the same inputs.  The source applies
the cast-to-int (and the ceil) to the integer extent and truncates the
quotient instead of ceiling it. -/
theorem lattice_count_truncates :
    fluidCount ⟨0, 0, 0⟩ ⟨4, 4, 4⟩ 1 = ⟨1, 1, 1⟩ ∧
    (⌈(((4 : ℤ) : ℚ) - ((0 : ℤ) : ℚ)) / ((1 : ℚ) * (5 / 2))⌉ : ℤ) = 2 ∧
    gridCount ⟨0, 0, 0⟩ ⟨4, 4, 4⟩ 1 = ⟨1, 1, 1⟩ ∧
    (⌈(((4 : ℤ) : ℚ) - ((0 : ℤ) : ℚ)) / ((1 : ℚ) * (1001 / 500))⌉ : ℤ) = 2 ∧
    clothCount ⟨0, 0⟩ ⟨4, 4⟩ ⟨5 / 2, 0, 5 / 2⟩ = ⟨1, 1⟩ ∧
    (⌈(((4 : ℤ) : ℚ) - ((0 : ℤ) : ℚ)) / ((5 : ℚ) / 2)⌉ : ℤ) = 2 := by
  refine ⟨?_, ?_, ?_, ?_, ?_, ?_⟩ <;> with_unfolding_all decide

/-- C8 fails as stated: the cloth builder generates the exact unjittered
lattice (first two particles at (0,0,0) and (1,0,0)) even under a random
stream of all ones, although the claimed jitter at radius 1 would offset
each coordinate by 1/100; and the grid builder with addJitter = false
also generates the exact lattice point. -/
theorem builder_jitter_counterexample :
    ((addHorizCloth ⟨0, 0⟩ ⟨4, 4⟩ ⟨1, 0, 1⟩ ⟨1, 1⟩ 1 false envOne
        (initPS 1 100 4)).pos).take 2 = [⟨0, 0, 0, 1⟩, ⟨1, 0, 0, 1⟩] ∧
    (envOne.rnd 0 * 2 - 1) * ((initPS 1 100 4).particleRadius * (1 / 100)) = 1 / 100 ∧
    (addParticleGrid ⟨0, 0, 0⟩ ⟨3, 3, 3⟩ 1 false envOne (initPS 1 100 4)).pos =
      [⟨0, 0, 0, 1⟩] := by
  refine ⟨?_, ?_, ?_⟩ <;> with_unfolding_all decide

/-- C8 amended: the fluid volume fill always jitters its lattice (its
positions depend on the random stream), the uniform grid fill jitters
exactly when its addJitter flag is set (with the flag clear its
positions are stream-independent), and the cloth sheet builder never
jitters (its positions are stream-independent for every argument). -/
theorem builder_jitter_characterization :
    (∀ (e e' : Env) (ll ur : I2) (sp : V3) (d : V2) (m : ℚ) (he : Bool) (s : PS),
      (addHorizCloth ll ur sp d m he e s).pos =
        (addHorizCloth ll ur sp d m he e' s).pos) ∧
    (∀ (e e' : Env) (ll ur : I3) (m : ℚ) (s : PS),
      (addParticleGrid ll ur m false e s).pos =
        (addParticleGrid ll ur m false e' s).pos) ∧
    (addFluid ⟨0, 0, 0⟩ ⟨4, 4, 4⟩ 1 1 ⟨1, 1, 1⟩ envOne (initPS 1 100 4)).pos ≠
      (addFluid ⟨0, 0, 0⟩ ⟨4, 4, 4⟩ 1 1 ⟨1, 1, 1⟩ env0 (initPS 1 100 4)).pos ∧
    (addParticleGrid ⟨0, 0, 0⟩ ⟨3, 3, 3⟩ 1 true envOne (initPS 1 100 4)).pos ≠
      (addParticleGrid ⟨0, 0, 0⟩ ⟨3, 3, 3⟩ 1 true env0 (initPS 1 100 4)).pos := by
  refine ⟨?_, ?_, ?_, ?_⟩
  · intro e e' ll ur sp d m he s
    rfl
  · intro e e' ll ur m s
    simp only [addParticleGrid]
    rw [addParticleMultiple_pos, addParticleMultiple_pos]
    have hj : (if (false : Bool) = true then s.particleRadius * (1 / 100) else 0) =
        (0 : ℚ) := rfl
    rw [hj, latticeJitterPos_zero_jitter ll (s.particleRadius * (1001 / 500))
      e.rnd e'.rnd s.rngIdx s.rngIdx]
  · with_unfolding_all decide
  · with_unfolding_all decide

/-- C9 fails as stated: two distinctly colored fluid samples queued and
drained in the same frame are merged into a single color group [0, 2)
carrying only the second sample's color. -/
theorem fluid_group_counterexample :
    (addFluids (setFluidToAdd ⟨2, 0, 0⟩ ⟨0, 1, 0⟩ 1 1
        (setFluidToAdd ⟨0, 0, 0⟩ ⟨1, 0, 0⟩ 1 1 (initPS 1 100 4)))).numParticles = 2 ∧
    (addFluids (setFluidToAdd ⟨2, 0, 0⟩ ⟨0, 1, 0⟩ 1 1
        (setFluidToAdd ⟨0, 0, 0⟩ ⟨1, 0, 0⟩ 1 1 (initPS 1 100 4)))).colorIndex =
      [(0, 2)] ∧
    (addFluids (setFluidToAdd ⟨2, 0, 0⟩ ⟨0, 1, 0⟩ 1 1
        (setFluidToAdd ⟨0, 0, 0⟩ ⟨1, 0, 0⟩ 1 1 (initPS 1 100 4)))).colors =
      [⟨0, 1, 0, 1⟩] := by
  refine ⟨?_, ?_, ?_⟩ <;> decide

/-- C9 amended: the immediate fluid builder does create exactly one group
per blob, spanning the admitted range and carrying the blob's own color;
but a non-empty fluid queue drained in one frame is merged into a single
group spanning every particle the drain admitted and carrying only the
last queued sample's color. -/
theorem fluid_group_characterization (ll ur : I3) (m d : ℚ) (c : V3) (e : Env)
    (s : PS) :
    ((addFluid ll ur m d c e s).colorIndex =
        s.colorIndex ++
          [((s.numParticles : ℤ), ((addFluid ll ur m d c e s).numParticles : ℤ))] ∧
      (addFluid ll ur m d c e s).colors = s.colors ++ [⟨c.x, c.y, c.z, 1⟩]) ∧
    ∀ (t : PS) (h : t.fluidsToAdd ≠ []),
      (addFluids t).colorIndex =
        t.colorIndex ++
          [((t.numParticles : ℤ), ((addFluids t).numParticles : ℤ))] ∧
      (addFluids t).colors =
        t.colors ++ [⟨(t.fluidsToAdd.getLast h).2.x, (t.fluidsToAdd.getLast h).2.y,
                      (t.fluidsToAdd.getLast h).2.z, 1⟩] := by
  constructor
  · constructor
    · simp [addFluid]
    · simp [addFluid]
  · intro t h
    unfold addFluids
    rw [dif_neg h]
    have hci := foldl_proj_eq PS.colorIndex drainFluidStep
      (fun u a => addParticle_colorIndex _ _ _ _ _ _) t.fluidsToAdd
      ({ t with fluidsToAdd := [] } : PS)
    have hco := foldl_proj_eq PS.colors drainFluidStep
      (fun u a => addParticle_colors _ _ _ _ _ _) t.fluidsToAdd
      ({ t with fluidsToAdd := [] } : PS)
    constructor
    · dsimp only
      rw [hci]
    · dsimp only
      rw [hco]

/-- Witness for fluid_group_characterization: a single queued red sample
drained on a roomy engine yields one appended group colored red. -/
theorem fluid_group_characterization_witness :
    (setFluidToAdd ⟨0, 0, 0⟩ ⟨1, 0, 0⟩ 1 1 (initPS 1 100 4)).fluidsToAdd ≠ [] ∧
    (addFluids (setFluidToAdd ⟨0, 0, 0⟩ ⟨1, 0, 0⟩ 1 1 (initPS 1 100 4))).colors =
      (setFluidToAdd ⟨0, 0, 0⟩ ⟨1, 0, 0⟩ 1 1 (initPS 1 100 4)).colors ++
        [⟨1, 0, 0, 1⟩] := by
  have h : (setFluidToAdd ⟨0, 0, 0⟩ ⟨1, 0, 0⟩ 1 1 (initPS 1 100 4)).fluidsToAdd ≠ [] := by
    decide
  refine ⟨h, ?_⟩
  have h2 := (fluid_group_characterization ⟨0, 0, 0⟩ ⟨4, 4, 4⟩ 1 1 ⟨1, 1, 1⟩ env0
    (initPS 1 100 4)).2 (setFluidToAdd ⟨0, 0, 0⟩ ⟨1, 0, 0⟩ 1 1 (initPS 1 100 4)) h
  rw [h2.2]
  rfl

/-- C10: the inverse mass is 1/mass with no guard for mass = 0: a
zero-mass single admission (and a zero-mass pair drained from the
discrete-particle queue, whose mass is the queued w component) is not
rejected — numParticles grows — and the stored inverse mass is the
non-finite value (modelled as none). -/
theorem zero_mass_inverse (p v : V4) (r : ℚ) (ph : ℤ) (s : PS)
    (h : s.numParticles < s.maxParticles) :
    (addParticle p v 0 r ph s).numParticles = s.numParticles + 1 ∧
    (addParticle p v 0 r ph s).w = s.w ++ [none] ∧
    floatRecip 0 = none ∧
    (addParticles { s with particlesToAdd := [(p, ⟨v.x, v.y, v.z, 0⟩)] }).w =
      s.w ++ [none] := by
  have hne : s.numParticles ≠ s.maxParticles := Nat.ne_of_lt h
  refine ⟨?_, ?_, ?_, ?_⟩
  · rw [addParticle_numParticles, if_neg hne]
  · unfold addParticle
    rw [if_neg hne]
    simp [floatRecip]
  · simp [floatRecip]
  · show (addParticle p ⟨v.x, v.y, v.z, 0⟩ 0 (3 / 2) SOLID
      ({ s with particlesToAdd := [] } : PS)).w = s.w ++ [none]
    unfold addParticle
    rw [if_neg hne]
    simp [floatRecip]

/-- Witness for zero_mass_inverse on a roomy concrete engine. -/
theorem zero_mass_inverse_witness :
    (initPS 1 5 2).numParticles < (initPS 1 5 2).maxParticles ∧
    ((addParticle ⟨0, 0, 0, 1⟩ ⟨0, 0, 0, 0⟩ 0 1 0 (initPS 1 5 2)).numParticles =
        (initPS 1 5 2).numParticles + 1 ∧
      (addParticle ⟨0, 0, 0, 1⟩ ⟨0, 0, 0, 0⟩ 0 1 0 (initPS 1 5 2)).w =
        (initPS 1 5 2).w ++ [none] ∧
      floatRecip 0 = none ∧
      (addParticles { initPS 1 5 2 with
          particlesToAdd := [(⟨0, 0, 0, 1⟩, ⟨0, 0, 0, 0⟩)] }).w =
        (initPS 1 5 2).w ++ [none]) :=
  ⟨by decide, zero_mass_inverse ⟨0, 0, 0, 1⟩ ⟨0, 0, 0, 0⟩ 1 0 (initPS 1 5 2) (by decide)⟩

end PSys
